import Mathlib

/-!
Verification development for the `octopus_french` Home Assistant integration
(`custom_components/octopus_french/`).  The Python sources are shallowly
embedded: dictionaries become structures with `Option` fields (a `none` field
models both an absent key and an explicit `None` value), Python `int` is `ℤ`
(or `ℕ` where the source values are non-negative), Python numbers flowing
through arithmetic are modelled as `ℚ`, and code that can raise is modelled
with `Except`.
-/

namespace OctopusFrench

/-! ## Rounding

Embedding of Python's built-in `round(x, ndigits)` (banker's rounding: ties go
to the even neighbour), over `ℚ` instead of IEEE floats. -/

/-- Floor of a rational number, computed from the normalised `num/den` form. -/
def ratFloor (q : ℚ) : ℤ := q.num.fdiv q.den

/-- Round-half-to-even to the nearest integer, as Python's `round`. -/
def roundHalfEven (q : ℚ) : ℤ :=
  let f := ratFloor q
  let frac : ℚ := q - (f : ℚ)
  if frac < 1 / 2 then f
  else if 1 / 2 < frac then f + 1
  else if f % 2 = 0 then f else f + 1

/-- Embedding of Python's `round(q, p)` for `p` decimal places. -/
def roundTo (p : ℕ) (q : ℚ) : ℚ := ((roundHalfEven (q * (10 : ℚ) ^ p) : ℚ)) / (10 : ℚ) ^ p

/-! ## utils.py — `parse_off_peak_hours`

The regex `(\d+)H(\d+)-(\d+)H(\d+)` is embedded as a left-to-right scanner for
that exact pattern (greedy maximal digit runs; for this pattern the regex
engine's backtracking can never produce a different match, because a shortened
digit run is still followed by a digit and so can never satisfy the literal
`H`/`-` that must come next). -/

/-- One parsed time range (the dict appended to `result["ranges"]`).
`start_time`/`end_time` model Python `datetime.time(h, m)` values as
hour/minute pairs; constructing them in Python raises `ValueError` unless
`h ≤ 23 ∧ m ≤ 59`, which the embedding tracks via `validWallTime` below. -/
structure TimeRange where
  start : String
  «end» : String
  start_time : ℕ × ℕ
  end_time : ℕ × ℕ
  start_minutes : ℕ
  end_minutes : ℕ
  duration_minutes : ℤ
  duration_hours : ℚ
  cross_midnight : Bool
deriving DecidableEq, Repr

/-- The dict returned by `parse_off_peak_hours`. -/
structure ParseResult where
  type : Option String
  ranges : List TimeRange
  total_hours : ℚ
  range_count : ℕ
deriving DecidableEq, Repr

/-- Zero-padding to two digits, as the f-string `f"{n:02d}"`. -/
def pad2 (n : ℕ) : String := if n < 10 then "0" ++ toString n else toString n

/-- Digits of a decimal numeral to a number, as Python `int` on a digit string. -/
def natOfDigits (ds : List Char) : ℕ := ds.foldl (fun n c => n * 10 + (c.toNat - 48)) 0

/-- A match quadruple `(start_hour, start_min, end_hour, end_min)`. -/
abbrev Quad := ℕ × ℕ × ℕ × ℕ

/-- Split a character list into its leading digit run and the rest. -/
def digitsSplit (cs : List Char) : List Char × List Char :=
  (cs.takeWhile Char.isDigit, cs.dropWhile Char.isDigit)

/-- Try to match `(\d+)H(\d+)-(\d+)H(\d+)` at the head of `cs`; on success
return the four numbers and the remaining input. -/
def matchQuad (cs : List Char) : Option (Quad × List Char) :=
  let p1 := digitsSplit cs
  if p1.1.isEmpty then none else
  match p1.2 with
  | 'H' :: r2 =>
    let p2 := digitsSplit r2
    if p2.1.isEmpty then none else
    match p2.2 with
    | '-' :: r4 =>
      let p3 := digitsSplit r4
      if p3.1.isEmpty then none else
      match p3.2 with
      | 'H' :: r6 =>
        let p4 := digitsSplit r6
        if p4.1.isEmpty then none else
        some ((natOfDigits p1.1, natOfDigits p2.1, natOfDigits p3.1, natOfDigits p4.1), p4.2)
      | _ => none
    | _ => none
  | _ => none

/-- Scanner for `re.findall` of the time pattern.  The fuel argument only
bounds recursion depth: every step consumes at least one character, so fuel
equal to the input length (as supplied by `findAll`) is never exhausted. -/
def findAllAux : ℕ → List Char → List Quad
  | 0, _ => []
  | _ + 1, [] => []
  | fuel + 1, c :: rest =>
    match matchQuad (c :: rest) with
    | some (q, r) => q :: findAllAux fuel r
    | none => findAllAux fuel rest

/-- All non-overlapping matches of `(\d+)H(\d+)-(\d+)H(\d+)`, left to right. -/
def findAll (cs : List Char) : List Quad := findAllAux cs.length cs

/-- Python `datetime.time(h, m)` succeeds exactly for these arguments. -/
def validWallTime (h m : ℕ) : Bool := h ≤ 23 && m ≤ 59

/-- Both endpoint times of a match are constructible `datetime.time` values. -/
def validQuad : Quad → Bool
  | (sh, sm, eh, em) => validWallTime sh sm && validWallTime eh em

/-- The range dict built for one regex match (lines 64–91 of `utils.py`). -/
def mkRange (sh sm eh em : ℕ) : TimeRange :=
  let startMinutes := sh * 60 + sm
  let endMinutes := eh * 60 + em
  let durationMinutes : ℤ :=
    if endMinutes ≤ startMinutes then (1440 - (startMinutes : ℤ)) + (endMinutes : ℤ)
    else (endMinutes : ℤ) - (startMinutes : ℤ)
  { start := pad2 sh ++ ":" ++ pad2 sm
    «end» := pad2 eh ++ ":" ++ pad2 em
    start_time := (sh, sm)
    end_time := (eh, em)
    start_minutes := startMinutes
    end_minutes := endMinutes
    duration_minutes := durationMinutes
    duration_hours := roundTo 2 ((durationMinutes : ℚ) / 60)
    cross_midnight := decide (endMinutes ≤ startMinutes) }

/-- `mkRange` applied to a match quadruple. -/
def mkQuadRange (q : Quad) : TimeRange := mkRange q.1 q.2.1 q.2.2.1 q.2.2.2

/-- The `for match in matches` loop.  An invalid wall-clock time makes
`datetime.time` raise inside the appended dict literal; the `.error` case
carries the ranges accumulated so far (the in-place mutations of
`result["ranges"]` that the `except` handler then observes). -/
def runMatches : List Quad → List TimeRange → ℤ → Except (List TimeRange) (List TimeRange × ℤ)
  | [], acc, totalMin => .ok (acc, totalMin)
  | q :: rest, acc, totalMin =>
    let r := mkQuadRange q
    if validQuad q then runMatches rest (acc ++ [r]) (totalMin + r.duration_minutes)
    else .error acc

/-- The leading `[A-Z]+` run captured by `re.match(r"^([A-Z]+)", label)`. -/
def leadingType (s : String) : Option String :=
  let u := s.toList.takeWhile (fun c => 'A' ≤ c && c ≤ 'Z')
  if u.isEmpty then none else some (String.mk u)

/-- The body of the `try:` block after the type extraction: process all regex
matches, either completing or stopping at the first raised exception. -/
def parseBody (s : String) : Except (List TimeRange) (List TimeRange × ℤ) :=
  runMatches (findAll s.toList) [] 0

/-- Embedding of `parse_off_peak_hours` (`utils.py` lines 16–99).  On the
exceptional path the handler logs and falls through to `return result`, whose
`total_hours`/`range_count` still hold their initial `0.0`/`0`. -/
def parse_off_peak_hours (label : Option String) : ParseResult :=
  match label with
  | none => { type := none, ranges := [], total_hours := 0, range_count := 0 }
  | some s =>
    if s = "" then { type := none, ranges := [], total_hours := 0, range_count := 0 }
    else
      let ty := leadingType s
      match parseBody s with
      | .ok (rs, totalMin) =>
        { type := ty, ranges := rs
          total_hours := roundTo 2 ((totalMin : ℚ) / 60), range_count := rs.length }
      | .error partRanges =>
        { type := ty, ranges := partRanges, total_hours := 0, range_count := 0 }

/-- The ranges visible after the loop, whether it completed or raised. -/
def rangesOfE (e : Except (List TimeRange) (List TimeRange × ℤ)) : List TimeRange :=
  match e with
  | .ok (rs, _) => rs
  | .error rs => rs

/-! ## const.py -/

/-- `FREQ_HOURLY` from `const.py`. -/
def FREQ_HOURLY : String := "HOUR_INTERVAL"

/-- `FREQ_DAILY` from `const.py`. -/
def FREQ_DAILY : String := "DAY_INTERVAL"

/-! ## coordinator.py

Instants and `timedelta`s are modelled in seconds (`ℤ`); exceptions as the
inductive `PyExc`, whose `updateFailed` constructor is the Home Assistant
`UpdateFailed` kind (message plus optional `from err` cause) and whose `other`
constructor stands for every other exception type, carrying its `str`. -/

/-- Embedding of `_compute_date_window` (`coordinator.py` lines 54–69),
returning the `(start, end)` pair in seconds; the source serialises the same
two instants with `.isoformat()`. -/
def compute_date_window (reading_frequency : String) (now : ℤ) : ℤ × ℤ :=
  if reading_frequency = FREQ_HOURLY then (now - 72 * 3600, now)
  else if reading_frequency = FREQ_DAILY then (now - 31 * 86400, now)
  else (now - 7 * 86400, now)

/-- Python exceptions as seen by the coordinator. -/
inductive PyExc where
  | updateFailed : String → Option PyExc → PyExc
  | other : String → PyExc

/-- Whether an exception is of the `UpdateFailed` kind. -/
def PyExc.isUpdateFailed : PyExc → Bool
  | .updateFailed _ _ => true
  | .other _ => false

/-- `str(err)` of an exception (its message). -/
def PyExc.msg : PyExc → String
  | .updateFailed m _ => m
  | .other m => m

/-- One electricity supply point (meter) of the account response. -/
structure Meter where
  id : String
  distributorStatus : Option String
  poweredStatus : Option String
deriving DecidableEq, Repr

/-- The fields of the `get_account_data` response that lines 80–111 of
`coordinator.py` read. -/
structure AccountData where
  account_id : Option String
  account_number : Option String
  electricity : List Meter
  gas : List Meter

/-- Python truthiness test `not x` for an optional string (`None` and the
empty string are falsy). -/
def pyFalsyStr : Option String → Bool
  | none => true
  | some s => s = ""

/-- The meter-retention predicate of the list comprehension at
`coordinator.py` lines 94–101 (and the matching `continue` guard at
`sensor.py` lines 206–211): keep unless terminated AND limited. -/
def keepMeter (sp : Meter) : Bool :=
  ! (decide (sp.distributorStatus = some "RESIL") && decide (sp.poweredStatus = some "LIMI"))

/-- The filtered electricity supply-point list. -/
def filterElectricityMeters (l : List Meter) : List Meter := l.filter keepMeter

/-- Embedding of `_fetch_all_data` (`coordinator.py` lines 80 onward).
`accountResult` is the outcome of `await get_account_data` (which may raise);
`assemble` abstracts the remainder of the method (readings/index fetches and
snapshot assembly — truncated in the repository after line 137), which sees
the account data with its electricity meter list already filtered and may
itself raise. -/
def fetch_all_data {α : Type} (accountResult : Except PyExc AccountData)
    (assemble : AccountData → Except PyExc α) : Except PyExc α :=
  match accountResult with
  | .error e => .error e
  | .ok ad =>
    if pyFalsyStr ad.account_id then
      .error (.updateFailed "Missing account_id in API response" none)
    else if pyFalsyStr ad.account_number then
      .error (.updateFailed "Missing account_number in API response" none)
    else
      assemble { ad with electricity := filterElectricityMeters ad.electricity }

/-- Embedding of `_async_update_data` (`coordinator.py` lines 71–78): run the
fetch; re-raise `UpdateFailed` unchanged; wrap any other exception in a fresh
`UpdateFailed` with `from err`. -/
def async_update_data {α : Type} (body : Except PyExc α) : Except PyExc α :=
  match body with
  | .ok s => .ok s
  | .error e =>
    match e with
    | .updateFailed m c => .error (.updateFailed m c)
    | .other m => .error (.updateFailed ("Error communicating with API: " ++ m) (some (.other m)))

/-- One full refresh cycle: `_async_update_data` around `_fetch_all_data`. -/
def updateCycle {α : Type} (accountResult : Except PyExc AccountData)
    (assemble : AccountData → Except PyExc α) : Except PyExc α :=
  async_update_data (fetch_all_data accountResult assemble)

/-! ## ISO timestamp → "YYYY-MM"

Embedding of `datetime.fromisoformat(reading_date)` followed by
`strftime("%Y-%m")` (`sensor.py` lines 385–386).  The model covers the
extended ISO-8601 grammar fragment `YYYY-MM-DD[<sep>HH[:MM[:SS[.fff…]]]
[offset]]` accepted by the CPython 3.11 parser (any single separator
character, offset `Z` or `±HH:MM`), with real calendar-date validation; the
formatter reproduces glibc `strftime`, whose `%Y` is unpadded and `%m`
zero-padded. -/

/-- Gregorian leap-year test, as `datetime`'s calendar. -/
def isLeapYear (y : ℕ) : Bool := (y % 4 = 0 && y % 100 ≠ 0) || y % 400 = 0

/-- Days in a month of the proleptic Gregorian calendar. -/
def daysInMonth (y m : ℕ) : ℕ :=
  if m = 2 then (if isLeapYear y then 29 else 28)
  else if m = 4 || m = 6 || m = 9 || m = 11 then 30
  else 31

/-- Read exactly two ASCII digits, returning their value and the rest. -/
def read2 : List Char → Option (ℕ × List Char)
  | a :: b :: rest =>
    if a.isDigit && b.isDigit then some ((a.toNat - 48) * 10 + (b.toNat - 48), rest) else none
  | _ => none

/-- `±HH:MM` after the sign character. -/
def validOffsetTail (cs : List Char) : Bool :=
  match read2 cs with
  | some (hh, rest) =>
    (match rest with
     | ':' :: rest2 =>
       (match read2 rest2 with
        | some (mm, rest3) => hh ≤ 23 && mm ≤ 59 && rest3.isEmpty
        | none => false)
     | _ => false)
  | none => false

/-- A UTC-offset suffix: `Z` or `±HH:MM`. -/
def validOffsetPart : List Char → Bool
  | ['Z'] => true
  | '+' :: rest => validOffsetTail rest
  | '-' :: rest => validOffsetTail rest
  | _ => false

/-- Fractional-second digits, then end of string or an offset. -/
def validFracTail (cs : List Char) : Bool :=
  let ds := cs.takeWhile Char.isDigit
  let rest := cs.dropWhile Char.isDigit
  !ds.isEmpty && (rest.isEmpty || validOffsetPart rest)

/-- What may follow the seconds value. -/
def validSecondsTail (cs : List Char) : Bool :=
  cs.isEmpty || validOffsetPart cs ||
  (match cs with
   | '.' :: rest => validFracTail rest
   | ',' :: rest => validFracTail rest
   | _ => false)

/-- A valid time-of-day part `HH[:MM[:SS…]][offset]`. -/
def validTimePart (cs : List Char) : Bool :=
  match read2 cs with
  | none => false
  | some (hh, rest) =>
    hh ≤ 23 &&
    (rest.isEmpty || validOffsetPart rest ||
     (match rest with
      | ':' :: rest2 =>
        (match read2 rest2 with
         | none => false
         | some (mm, rest3) =>
           mm ≤ 59 &&
           (rest3.isEmpty || validOffsetPart rest3 ||
            (match rest3 with
             | ':' :: rest4 =>
               (match read2 rest4 with
                | none => false
                | some (ss, rest5) => ss ≤ 59 && validSecondsTail rest5)
             | _ => false)))
      | _ => false))

/-- `strftime("%Y-%m")` of the instant `fromisoformat` parses from `s`, or
`none` when parsing raises `ValueError`. -/
def isoToMonth (s : String) : Option String :=
  match s.toList with
  | y1 :: y2 :: y3 :: y4 :: '-' :: m1 :: m2 :: '-' :: d1 :: d2 :: rest =>
    if y1.isDigit && y2.isDigit && y3.isDigit && y4.isDigit &&
       m1.isDigit && m2.isDigit && d1.isDigit && d2.isDigit then
      let y := natOfDigits [y1, y2, y3, y4]
      let m := natOfDigits [m1, m2]
      let d := natOfDigits [d1, d2]
      if 1 ≤ y && 1 ≤ m && m ≤ 12 && 1 ≤ d && d ≤ daysInMonth y m &&
         (rest.isEmpty ||
          (match rest with
           | _ :: tr => validTimePart tr
           | [] => false)) then
        some (toString y ++ "-" ++ pad2 m)
      else none
    else none
  | _ => none

/-! ## sensor.py — snapshot data model and monthly aggregation -/

/-- The `costInclTax` sub-dict of a statistic.  `estimatedAmount = none`
models the key being absent (a dict without it — including the empty, falsy
dict — fails the `cost and "estimatedAmount" in cost` guard either way). -/
structure CostInfo where
  estimatedAmount : Option ℚ
deriving DecidableEq, Repr

/-- One entry of a reading's `metaData.statistics` list. -/
structure Stat where
  label : Option String
  value : Option ℚ
  costInclTax : Option CostInfo
deriving DecidableEq, Repr

/-- The `metaData` dict of a reading. -/
structure MetaData where
  statistics : Option (List Stat)
deriving DecidableEq, Repr

/-- One electricity (or gas) reading. -/
structure Reading where
  startAt : Option String
  metaData : Option MetaData
deriving DecidableEq, Repr

/-- The `electricity` sub-dict of the coordinator snapshot. -/
structure ElectricityData where
  readings : Option (List Reading)
deriving DecidableEq, Repr

/-- The part of the coordinator snapshot the aggregation and tariff-detection
code reads. -/
structure SnapshotData where
  electricity : Option ElectricityData
deriving DecidableEq, Repr

/-- `reading.get("metaData", {}).get("statistics", []) or []`. -/
def Reading.stats (r : Reading) : List Stat :=
  (r.metaData.bind MetaData.statistics).getD []

/-- `coordinator.data.get("electricity", {}).get("readings", []) or []`. -/
def getElecReadings (d : SnapshotData) : List Reading :=
  (d.electricity.bind ElectricityData.readings).getD []

/-- The sort key `x.get("startAt") or ""` of `_safe_sorted_readings`. -/
def sortKey (r : Reading) : String := r.startAt.getD ""

/-- Stable insertion placing `x` after every already-placed reading whose key
is not greater — the order Python's stable `sorted` produces. -/
def insertByKey (x : Reading) : List Reading → List Reading
  | [] => [x]
  | y :: ys => if sortKey x < sortKey y then x :: y :: ys else y :: insertByKey x ys

/-- Embedding of `_safe_sorted_readings` (`sensor.py` lines 323–329): a stable
sort by `startAt or ""`.  With every key a string the comparison cannot raise,
so the `except` fallback is unreachable. -/
def safe_sorted_readings (l : List Reading) : List Reading :=
  l.foldl (fun acc x => insertByKey x acc) []

/-- Embedding of `_statistics_labels_for_key` (`sensor.py` lines 344–364). -/
def statistics_labels_for_key (key : String) : List String × Bool :=
  if key = "conso_base" then (["BASE"], false)
  else if key = "conso_hp" then (["HEURES_PLEINES"], false)
  else if key = "conso_hc" then (["HEURES_CREUSES"], false)
  else if key = "cout_base" then (["CONSO_BASE"], true)
  else if key = "cout_hp" then (["CONSO_HEURES_PLEINES"], true)
  else if key = "cout_hc" then (["CONSO_HEURES_CREUSES"], true)
  else ([], false)

/-- The amount one statistic adds to `total` in the `for stat in statistics`
loop (`sensor.py` lines 397–411); non-matching statistics add `0`. -/
def statContribution (labels : List String) (is_cost : Bool) (s : Stat) : ℚ :=
  match s.label with
  | none => 0
  | some l =>
    if labels.contains l then
      if is_cost then
        match s.costInclTax with
        | some c =>
          (match c.estimatedAmount with
           | some a => a / 100
           | none => 0)
        | none => 0
      else s.value.getD 0
    else 0

/-- The amount one reading adds to `total` once retained. -/
def readingSum (labels : List String) (is_cost : Bool) (r : Reading) : ℚ :=
  (r.stats.map (statContribution labels is_cost)).sum

/-- The `"%Y-%m"` month of a reading, or `none` when the reading is skipped:
`startAt` falsy (lines 380–382) or `fromisoformat` raising (lines 384–389). -/
def readingMonth (r : Reading) : Option String :=
  match r.startAt with
  | none => none
  | some s => if s = "" then none else isoToMonth s

/-- The accumulated `total` of `_calculate_monthly_total` before rounding. -/
def monthlySum (d : SnapshotData) (key : String) (current_month : String) : ℚ :=
  let lc := statistics_labels_for_key key
  ((safe_sorted_readings (getElecReadings d)).map (fun r =>
    if readingMonth r = some current_month then readingSum lc.1 lc.2 r else 0)).sum

/-- Embedding of `_calculate_monthly_total` (`sensor.py` lines 366–417); the
sensor's current month and configured precision are passed as arguments. -/
def calculate_monthly_total (d : SnapshotData) (key : String) (precision : Option ℕ)
    (current_month : String) : ℚ :=
  if (getElecReadings d).isEmpty then 0
  else
    match precision with
    | some p => roundTo p (monthlySum d key current_month)
    | none => monthlySum d key current_month

/-! ## sensor.py — tariff detection -/

/-- Embedding of `_detect_tariff_type_for_meter` (`sensor.py` lines 261–283).
All dictionary/list lookups are chained `.get` calls with defaults, embedded
as total `Option` accesses, so the function is total; the `except
(KeyError, IndexError, TypeError)` handler also answers `"UNKNOWN"`. -/
def detect_tariff_type_for_meter (d : SnapshotData) : String :=
  let readings := getElecReadings d
  match readings.getLast? with
  | none => "UNKNOWN"
  | some latest =>
    let stats := latest.stats
    if stats.isEmpty then "UNKNOWN"
    else
      let labels := stats.map (fun st => st.label.getD "")
      if labels.contains "CONSO_BASE" then "BASE"
      else if labels.contains "CONSO_HEURES_PLEINES" &&
              labels.contains "CONSO_HEURES_CREUSES" then "HPHC"
      else "UNKNOWN"

/-- The label set of the last received reading (empty when there is none). -/
def labelsOfLastReading (d : SnapshotData) : List String :=
  match (getElecReadings d).getLast? with
  | none => []
  | some latest => latest.stats.map (fun st => st.label.getD "")

/-! ## Helper lemmas -/

section
attribute [local semireducible] Rat.add Rat.mul Rat.inv Rat.sub Rat.ofScientific

/-- Summing a guarded map equals mapping over the filtered list. -/
theorem sum_map_ite {α : Type} (l : List α) (p : α → Prop) [DecidablePred p] (f : α → ℚ) :
    (l.map (fun a => if p a then f a else 0)).sum
      = ((l.filter (fun a => decide (p a))).map f).sum := by
  induction l with
  | nil => rfl
  | cons x xs ih =>
    by_cases h : p x <;> simp [List.filter_cons, h, ih]

/-- `insertByKey` only repositions the inserted element in the sum. -/
theorem sum_map_insertByKey (x : Reading) (l : List Reading) (f : Reading → ℚ) :
    ((insertByKey x l).map f).sum = f x + (l.map f).sum := by
  induction l with
  | nil => simp [insertByKey]
  | cons y ys ih =>
    by_cases h : sortKey x < sortKey y
    · simp [insertByKey, h]
    · simp [insertByKey, h, ih]
      ring

/-- Sorting the readings does not change any mapped sum. -/
theorem sum_map_sorted (l : List Reading) (f : Reading → ℚ) :
    ((safe_sorted_readings l).map f).sum = (l.map f).sum := by
  have aux : ∀ (l2 acc : List Reading),
      ((l2.foldl (fun a x => insertByKey x a) acc).map f).sum
        = (acc.map f).sum + (l2.map f).sum := by
    intro l2
    induction l2 with
    | nil => simp
    | cons x xs ih =>
      intro acc
      simp only [List.foldl, ih, sum_map_insertByKey, List.map_cons, List.sum_cons]
      ring
  simpa [safe_sorted_readings] using aux l []

/-- When every match carries constructible wall-clock times, the loop completes
with all ranges appended and the exact total of their durations. -/
theorem runMatches_ok (ms : List Quad) (acc : List TimeRange) (t : ℤ)
    (h : ∀ q ∈ ms, validQuad q = true) :
    runMatches ms acc t = .ok (acc ++ ms.map mkQuadRange,
      t + (ms.map (fun q => (mkQuadRange q).duration_minutes)).sum) := by
  induction ms generalizing acc t with
  | nil => simp [runMatches]
  | cons q rest ih =>
    have hq : validQuad q = true := h q (by simp)
    have hrest : ∀ p ∈ rest, validQuad p = true := fun p hp => h p (by simp [hp])
    rw [runMatches, if_pos hq, ih _ _ hrest]
    simp [List.append_assoc, add_assoc]

/-- Every range ever visible in the loop state is the embedding of a match. -/
theorem mem_rangesOfE_runMatches (ms : List Quad) (acc : List TimeRange) (t : ℤ)
    (r : TimeRange) (h : r ∈ rangesOfE (runMatches ms acc t)) :
    r ∈ acc ∨ ∃ q : Quad, r = mkQuadRange q := by
  induction ms generalizing acc t with
  | nil =>
    simp [runMatches, rangesOfE] at h
    exact .inl h
  | cons q rest ih =>
    by_cases hv : validQuad q = true
    · have h2 := ih (acc ++ [mkQuadRange q]) (t + (mkQuadRange q).duration_minutes)
        (by rw [runMatches] at h; simpa [hv] using h)
      rcases h2 with h2 | h2
      · rcases List.mem_append.mp h2 with h3 | h3
        · exact .inl h3
        · exact .inr ⟨q, by simpa using h3⟩
      · exact .inr h2
    · rw [runMatches] at h
      simp [hv, rangesOfE] at h
      exact .inl h

/-- The ranges field of a parse outcome, exceptional path included. -/
theorem parse_ranges_eq (s : String) (hs : ¬ s = "") :
    (parse_off_peak_hours (some s)).ranges = rangesOfE (parseBody s) := by
  cases hpb : parseBody s with
  | ok v =>
    cases v with
    | mk rs tm => simp [parse_off_peak_hours, hs, hpb, rangesOfE]
  | error e => simp [parse_off_peak_hours, hs, hpb, rangesOfE]

/-! ## The claims -/

/-- Claim C1: the monthly aggregation sums a reading's statistics if and only
if the reading's start timestamp parses to the target `"YYYY-MM"` month
(partition by string equality only); a reading whose start timestamp is
missing or unparsable is skipped without error; an empty or missing reading
list yields `0.0`. -/
theorem claim_C1 (d : SnapshotData) (key m : String) :
    monthlySum d key m
      = (((getElecReadings d).filter (fun r => decide (readingMonth r = some m))).map
          (readingSum (statistics_labels_for_key key).1 (statistics_labels_for_key key).2)).sum
    ∧ (∀ r : Reading, r.startAt = none → readingMonth r = none)
    ∧ (∀ (r : Reading) (s' : String), r.startAt = some s' → isoToMonth s' = none →
        readingMonth r = none)
    ∧ (getElecReadings d = [] → ∀ p, calculate_monthly_total d key p m = 0) := by
  refine ⟨?_, ?_, ?_, ?_⟩
  · simp only [monthlySum]
    rw [sum_map_sorted]
    exact sum_map_ite _ _ _
  · intro r h
    simp [readingMonth, h]
  · intro r s' h1 h2
    by_cases h3 : s' = "" <;> simp [readingMonth, h1, h2, h3]
  · intro h p
    simp [calculate_monthly_total, h]

/-- Witness for C1 at concrete inputs: a reading with no `startAt` and one
with an unparsable `startAt` are both skipped, and an empty snapshot
aggregates to `0`. -/
theorem claim_C1_witness :
    readingMonth ⟨none, none⟩ = none
    ∧ readingMonth ⟨some "garbage", none⟩ = none
    ∧ calculate_monthly_total ⟨none⟩ "conso_base" (some 2) "2024-02" = 0 :=
  ⟨(claim_C1 ⟨none⟩ "conso_base" "2024-02").2.1 ⟨none, none⟩ rfl,
   (claim_C1 ⟨none⟩ "conso_base" "2024-02").2.2.1 ⟨some "garbage", none⟩ "garbage" rfl (by decide),
   (claim_C1 ⟨none⟩ "conso_base" "2024-02").2.2.2 rfl (some 2)⟩

/-- Claim C2: a fetch cycle turns a missing account id or account number into
an `UpdateFailed` error (a recoverable refresh failure, not a crash); any
other exception raised during the cycle is re-raised wrapped in a single
`UpdateFailed` that keeps the original as its cause; an `UpdateFailed` raised
inside the cycle propagates unchanged, never double-wrapped. -/
theorem claim_C2 {α : Type} (acct : Except PyExc AccountData)
    (assemble : AccountData → Except PyExc α) :
    (∀ ad, acct = .ok ad → pyFalsyStr ad.account_id = true →
       updateCycle acct assemble
         = .error (.updateFailed "Missing account_id in API response" none))
    ∧ (∀ ad, acct = .ok ad → pyFalsyStr ad.account_id = false →
       pyFalsyStr ad.account_number = true →
       updateCycle acct assemble
         = .error (.updateFailed "Missing account_number in API response" none))
    ∧ (∀ m, fetch_all_data acct assemble = .error (.other m) →
       updateCycle acct assemble
         = .error (.updateFailed ("Error communicating with API: " ++ m) (some (.other m))))
    ∧ (∀ e, fetch_all_data acct assemble = .error e → e.isUpdateFailed = true →
       updateCycle acct assemble = .error e) := by
  refine ⟨?_, ?_, ?_, ?_⟩
  · intro ad h hid
    subst h
    simp [updateCycle, fetch_all_data, hid, async_update_data]
  · intro ad h hid hnum
    subst h
    simp [updateCycle, fetch_all_data, hid, hnum, async_update_data]
  · intro mg h
    simp [updateCycle, h, async_update_data]
  · intro e h hupd
    cases e with
    | updateFailed mg c => simp [updateCycle, h, async_update_data]
    | other mg => simp [PyExc.isUpdateFailed] at hupd

/-- Witness for C2 at concrete cycles: missing id fails recoverably, a
non-`UpdateFailed` exception is wrapped with its cause, and an `UpdateFailed`
passes through unchanged. -/
theorem claim_C2_witness :
    updateCycle (Except.ok ⟨none, some "A-1", [], []⟩)
        (fun _ => (Except.ok true : Except PyExc Bool))
      = .error (.updateFailed "Missing account_id in API response" none)
    ∧ updateCycle (Except.error (.other "boom"))
        (fun _ => (Except.ok true : Except PyExc Bool))
      = .error (.updateFailed ("Error communicating with API: " ++ "boom") (some (.other "boom")))
    ∧ updateCycle (Except.error (.updateFailed "E" none))
        (fun _ => (Except.ok true : Except PyExc Bool))
      = .error (.updateFailed "E" none) :=
  ⟨(claim_C2 _ _).1 ⟨none, some "A-1", [], []⟩ rfl rfl,
   (claim_C2 _ _).2.2.1 "boom" rfl,
   (claim_C2 _ _).2.2.2 (.updateFailed "E" none) rfl rfl⟩

/-- Claim C3: a meter is dropped from the snapshot's electricity meter list
if and only if its distributor status is `"RESIL"` AND its powered status is
`"LIMI"`; and `_fetch_all_data` hands the snapshot assembly exactly the
filtered list. -/
theorem claim_C3 (l : List Meter) (m : Meter) (hm : m ∈ l) :
    (m ∉ filterElectricityMeters l
       ↔ (m.distributorStatus = some "RESIL" ∧ m.poweredStatus = some "LIMI"))
    ∧ (∀ (α : Type) (ad : AccountData) (assemble : AccountData → Except PyExc α),
        pyFalsyStr ad.account_id = false → pyFalsyStr ad.account_number = false →
        fetch_all_data (.ok ad) assemble
          = assemble { ad with electricity := filterElectricityMeters ad.electricity }) := by
  constructor
  · have hiff : m ∈ filterElectricityMeters l
        ↔ (m ∈ l ∧ ¬(m.distributorStatus = some "RESIL" ∧ m.poweredStatus = some "LIMI")) := by
      simp only [filterElectricityMeters, List.mem_filter, keepMeter]
      simp only [Bool.not_eq_true', Bool.and_eq_false_iff, decide_eq_false_iff_not]
      tauto
    constructor
    · intro hn
      by_contra hcon
      exact hn (hiff.mpr ⟨hm, hcon⟩)
    · intro hboth hmem
      exact (hiff.mp hmem).2 hboth
  · intro α ad assemble h1 h2
    simp [fetch_all_data, h1, h2]

/-- Witness for C3: a `RESIL`/`LIMI` meter is absent from the filtered list
while a `RESIL`/`ACTIVE` meter is retained. -/
theorem claim_C3_witness :
    (⟨"m1", some "RESIL", some "LIMI"⟩ : Meter)
        ∉ filterElectricityMeters
            [⟨"m1", some "RESIL", some "LIMI"⟩, ⟨"m2", some "RESIL", some "ACTIVE"⟩]
    ∧ (⟨"m2", some "RESIL", some "ACTIVE"⟩ : Meter)
        ∈ filterElectricityMeters
            [⟨"m1", some "RESIL", some "LIMI"⟩, ⟨"m2", some "RESIL", some "ACTIVE"⟩] := by
  constructor
  · exact ((claim_C3 _ _ (by decide)).1).mpr ⟨rfl, rfl⟩
  · by_contra hn
    have h2 := ((claim_C3
      [⟨"m1", some "RESIL", some "LIMI"⟩, ⟨"m2", some "RESIL", some "ACTIVE"⟩]
      ⟨"m2", some "RESIL", some "ACTIVE"⟩ (by decide)).1).mp hn
    exact absurd h2.2 (by decide)

/-- Claim C4: the request window is `[now − 72h, now]` for the hourly
frequency, `[now − 31d, now]` for the daily frequency, and `[now − 7d, now]`
for any other frequency value (times in seconds). -/
theorem claim_C4 (f : String) (now : ℤ) :
    (f = "HOUR_INTERVAL" → compute_date_window f now = (now - 72 * 3600, now))
    ∧ (f = "DAY_INTERVAL" → compute_date_window f now = (now - 31 * 86400, now))
    ∧ (f ≠ "HOUR_INTERVAL" → f ≠ "DAY_INTERVAL" →
        compute_date_window f now = (now - 7 * 86400, now)) := by
  refine ⟨?_, ?_, ?_⟩
  · intro h
    subst h
    rfl
  · intro h
    subst h
    rfl
  · intro h1 h2
    simp [compute_date_window, FREQ_HOURLY, FREQ_DAILY, h1, h2]

/-- Witness for C4 at `now = 0` for all three frequency cases. -/
theorem claim_C4_witness :
    compute_date_window "HOUR_INTERVAL" 0 = (0 - 72 * 3600, 0)
    ∧ compute_date_window "DAY_INTERVAL" 0 = (0 - 31 * 86400, 0)
    ∧ compute_date_window "WEEK_INTERVAL" 0 = (0 - 7 * 86400, 0) :=
  ⟨(claim_C4 "HOUR_INTERVAL" 0).1 rfl,
   (claim_C4 "DAY_INTERVAL" 0).2.1 rfl,
   (claim_C4 "WEEK_INTERVAL" 0).2.2 (by decide) (by decide)⟩

/-- Claim C5: every parsed time range satisfies `start_minutes =
start_hour*60+start_min` (likewise for the end), crosses midnight exactly
when `end_minutes ≤ start_minutes` with duration `(1440 − start_minutes) +
end_minutes` (else `end_minutes − start_minutes`), and `duration_hours` is
the duration over 60 rounded to 2 decimals; and `parse("HC 22H00-06H00")`
yields exactly one range with `duration_hours = 8` and `cross_midnight =
true`. -/
theorem claim_C5 :
    (∀ (label : Option String) (r : TimeRange), r ∈ (parse_off_peak_hours label).ranges →
       r.start_minutes = r.start_time.1 * 60 + r.start_time.2
       ∧ r.end_minutes = r.end_time.1 * 60 + r.end_time.2
       ∧ r.cross_midnight = decide (r.end_minutes ≤ r.start_minutes)
       ∧ r.duration_minutes = (if r.end_minutes ≤ r.start_minutes
           then (1440 - (r.start_minutes : ℤ)) + (r.end_minutes : ℤ)
           else (r.end_minutes : ℤ) - (r.start_minutes : ℤ))
       ∧ r.duration_hours = roundTo 2 ((r.duration_minutes : ℚ) / 60))
    ∧ parse_off_peak_hours (some "HC 22H00-06H00")
        = ⟨some "HC", [⟨"22:00", "06:00", (22, 0), (6, 0), 1320, 360, 480, 8, true⟩], 8, 1⟩ := by
  constructor
  · intro label r hr
    have hmk : r ∈ ([] : List TimeRange) ∨ ∃ q : Quad, r = mkQuadRange q := by
      cases label with
      | none => simp [parse_off_peak_hours] at hr
      | some s =>
        by_cases hs : s = ""
        · simp [parse_off_peak_hours, hs] at hr
        · rw [parse_ranges_eq s hs] at hr
          exact mem_rangesOfE_runMatches (findAll s.toList) [] 0 r hr
    rcases hmk with hmk | ⟨q, rfl⟩
    · simp at hmk
    · obtain ⟨sh, sm, eh, em⟩ := q
      exact ⟨rfl, rfl, rfl, rfl, rfl⟩
  · decide

/-- Witness for C5: the midnight-crossing range of `"HC 22H00-06H00"` is in
the parse output and satisfies the duration formula. -/
theorem claim_C5_witness :
    (⟨"22:00", "06:00", (22, 0), (6, 0), 1320, 360, 480, 8, true⟩ : TimeRange)
        ∈ (parse_off_peak_hours (some "HC 22H00-06H00")).ranges
    ∧ (8 : ℚ) = roundTo 2 (((480 : ℤ) : ℚ) / 60) := by
  refine ⟨by decide, ?_⟩
  have h := (claim_C5.1 (some "HC 22H00-06H00")
    ⟨"22:00", "06:00", (22, 0), (6, 0), 1320, 360, 480, 8, true⟩ (by decide)).2.2.2.2
  exact h

/-- Claim C6: tariff detection looks only at the statistics labels of the
last element of the readings list as received, answering `"BASE"` when they
contain `CONSO_BASE`, `"HPHC"` when they contain both `CONSO_HEURES_PLEINES`
and `CONSO_HEURES_CREUSES`, and `"UNKNOWN"` otherwise — in particular
`"UNKNOWN"` for an empty or missing structure, never an exception (the
embedding is a total function). -/
theorem claim_C6 (d : SnapshotData) :
    detect_tariff_type_for_meter d =
      (if (labelsOfLastReading d).contains "CONSO_BASE" then "BASE"
       else if (labelsOfLastReading d).contains "CONSO_HEURES_PLEINES" &&
               (labelsOfLastReading d).contains "CONSO_HEURES_CREUSES" then "HPHC"
       else "UNKNOWN")
    ∧ (getElecReadings d = [] → detect_tariff_type_for_meter d = "UNKNOWN") := by
  constructor
  · unfold detect_tariff_type_for_meter labelsOfLastReading
    cases hlast : (getElecReadings d).getLast? with
    | none => simp [hlast]
    | some latest =>
      cases hstats : latest.stats with
      | nil => simp [hlast, hstats]
      | cons a as => simp [hlast, hstats]
  · intro h
    unfold detect_tariff_type_for_meter
    simp [h]

/-- Witness for C6: a snapshot with no electricity data detects `"UNKNOWN"`. -/
theorem claim_C6_witness : detect_tariff_type_for_meter ⟨none⟩ = "UNKNOWN" :=
  (claim_C6 ⟨none⟩).2 rfl

/-- Claim C7: in a cost aggregation a matching statistic with a cost
substructure contributes exactly `estimatedAmount / 100`, and a matching
statistic without one contributes zero. -/
theorem claim_C7 (labels : List String) (s : Stat) (l : String) (a : ℚ)
    (hl : s.label = some l) (hmem : labels.contains l = true) :
    (s.costInclTax = some ⟨some a⟩ → statContribution labels true s = a / 100)
    ∧ (s.costInclTax = none → statContribution labels true s = 0) := by
  have hmem2 : l ∈ labels := by simpa using hmem
  constructor <;> intro hc <;> simp [statContribution, hl, hmem2, hc]

/-- Witness for C7: `estimatedAmount = 1234` contributes `12.34`. -/
theorem claim_C7_witness :
    statContribution ["CONSO_BASE"] true ⟨some "CONSO_BASE", none, some ⟨some 1234⟩⟩ = 12.34 := by
  have h := (claim_C7 ["CONSO_BASE"] ⟨some "CONSO_BASE", none, some ⟨some 1234⟩⟩
    "CONSO_BASE" 1234 rfl (by decide)).1 rfl
  rw [h]
  decide

/-- Claim C8: the off-peak parser never propagates an exception — when the
loop body raises (modelled by `parseBody` returning `.error`), the handler
catches it and the function still returns the best-effort result: the type
prefix, the ranges accumulated before the failure, and the default
`total_hours`/`range_count`. -/
theorem claim_C8 (s : String) (pr : List TimeRange) (h : parseBody s = .error pr) :
    parse_off_peak_hours (some s)
      = { type := leadingType s, ranges := pr, total_hours := 0, range_count := 0 } := by
  by_cases hs : s = ""
  · subst hs
    have hok : parseBody "" = .ok ([], 0) := rfl
    rw [hok] at h
    exact Except.noConfusion h
  · simp [parse_off_peak_hours, hs, h]

/-- Witness for C8 on an input whose second time field is not a valid
wall-clock time, so the loop raises: the parser still returns a result. -/
theorem claim_C8_witness :
    parse_off_peak_hours (some "HC 05H00-30H00")
      = { type := some "HC", ranges := [], total_hours := 0, range_count := 0 } := by
  have h := claim_C8 "HC 05H00-30H00" [] rfl
  rw [h]
  decide

/-- Claim C9: a null or empty label parses to the all-default empty result. -/
theorem claim_C9 :
    parse_off_peak_hours none
      = { type := none, ranges := [], total_hours := 0, range_count := 0 }
    ∧ parse_off_peak_hours (some "")
      = { type := none, ranges := [], total_hours := 0, range_count := 0 } :=
  ⟨rfl, rfl⟩

/-- Counterexample to C10 as stated: on `"HC 01H00-02H00 25H00-26H00"` the
loop raises at the second match after appending the first range, so
`range_count` (0) differs from the length of `ranges` (1). -/
theorem claim_C10_counterexample :
    ¬ ((parse_off_peak_hours (some "HC 01H00-02H00 25H00-26H00")).range_count
         = (parse_off_peak_hours (some "HC 01H00-02H00 25H00-26H00")).ranges.length
       ∧ (parse_off_peak_hours (some "HC 01H00-02H00 25H00-26H00")).total_hours
         = roundTo 2 ((((parse_off_peak_hours
             (some "HC 01H00-02H00 25H00-26H00")).ranges.map
               TimeRange.duration_minutes).sum : ℚ) / 60)) := by
  decide

/-- Claim C10 (amended): for every label all of whose matched ranges carry
valid wall-clock times — so the loop completes without raising — the result
satisfies the invariant: `range_count` equals the length of `ranges` and
`total_hours` is the sum of the ranges' `duration_minutes` divided by 60,
rounded to 2 decimals. -/
theorem claim_C10 (s : String) (h : ∀ q ∈ findAll s.toList, validQuad q = true) :
    (parse_off_peak_hours (some s)).range_count
      = (parse_off_peak_hours (some s)).ranges.length
    ∧ (parse_off_peak_hours (some s)).total_hours
      = roundTo 2 ((((parse_off_peak_hours (some s)).ranges.map
          TimeRange.duration_minutes).sum : ℚ) / 60) := by
  by_cases hs : s = ""
  · subst hs
    exact ⟨rfl, by decide⟩
  · have hok := runMatches_ok (findAll s.toList) [] 0 h
    have hpb : parseBody s = .ok ((findAll s.toList).map mkQuadRange,
        0 + ((findAll s.toList).map (fun q => (mkQuadRange q).duration_minutes)).sum) := by
      simpa [parseBody] using hok
    constructor
    · simp [parse_off_peak_hours, hs, hpb]
    · simp only [parse_off_peak_hours, hpb, if_neg hs, List.map_map, zero_add]
      rfl

/-- Witness for the amended C10 on a label whose two ranges are both valid. -/
theorem claim_C10_witness :
    (parse_off_peak_hours (some "HC 00H30-06H30 14H30-16H30")).range_count
      = (parse_off_peak_hours (some "HC 00H30-06H30 14H30-16H30")).ranges.length
    ∧ (parse_off_peak_hours (some "HC 00H30-06H30 14H30-16H30")).total_hours
      = roundTo 2 ((((parse_off_peak_hours (some "HC 00H30-06H30 14H30-16H30")).ranges.map
          TimeRange.duration_minutes).sum : ℚ) / 60) :=
  claim_C10 "HC 00H30-06H30 14H30-16H30" (by decide)

end

end OctopusFrench
